import Mathlib

/-!
Shallow embedding of the `worklog add` subcommand of the jira-cli
repository (`internal/cmd/issue/worklog/add/add.go`, five-positional-argument
variant) and proofs about its input-resolution and submission workflow.

The external collaborators (the interactive prompt engine, stdin detection,
file reading, the HTTP client, configuration lookup) are modelled as explicit
parameters: an `Env` record for the ambient environment and an `Interaction`
record for the results the collaborators would return.  The workflow itself is
translated function by function from the Go source; the observable behaviour
of one invocation is a list of `Effect`s in the order they happen plus a final
`Outcome`.
-/

namespace WorklogAdd

/-- Values of the command's flags (`--web`, `--template` alias `-T`,
`--no-input`, and the inherited `--debug`), already parsed by the CLI
framework. -/
structure FlagSet where
  web : Bool
  template : String
  noInput : Bool
  debug : Bool
  deriving Repr, DecidableEq

/-- The `addParams` struct of `add.go`: the mutable parameter record built by
`parseArgsAndFlags` and filled in by the completer. -/
structure AddParams where
  issueKey : String
  comment : String
  startedDate : String
  startedTime : String
  timeSpent : String
  template : String
  noInput : Bool
  debug : Bool
  deriving Repr, DecidableEq

/-- Ambient environment of one invocation: stdin state, configuration values
(`project.key`, `server`), the result that `cmdutil.ReadFile` on the template
source would return, and the formatted current date and time used as prompt
defaults. -/
structure Env where
  stdinHasData : Bool
  projectKey : String
  server : String
  readFileResult : Except String String
  currentDate : String
  currentTime : String

/-- One survey question, as constructed by `getQuestions`: its `Name`, the
prompt message, the default offered, whether it carries the `Required`
validator, and whether the prompt is an editor (`surveyext.JiraEditor`) rather
than a plain input. -/
structure Question where
  name : String
  message : String
  defaultVal : String
  required : Bool
  editor : Bool
  deriving Repr, DecidableEq

/-- Results the interactive collaborators would hand back: the answer the user
gives to a question of a given name, possible errors of the two `survey.Ask`
calls, the answer to the confirmation select, and the results of the
`AddIssueWorklog` and `Navigate` calls (`none` = success). -/
structure Interaction where
  answer : String → String
  askError : Option String
  actionAnswer : String
  actionAskError : Option String
  worklogResult : Option String
  navigateResult : Option String

/-- Externally observable effects of one invocation, in order. -/
inductive Effect where
  | askedQuestions (names : List String)
  | askedConfirmation
  | calledAddIssueWorklog (issueKey body started timeSpent : String)
  | printedSuccess (issueKey : String)
  | printedURL (url : String)
  | navigated (server issueKey : String)
  deriving Repr, DecidableEq

/-- Final result of one invocation: `fatal` covers `cmdutil.Failed` and
`cmdutil.ExitIfError` on an error (non-zero process exit), `success` the
normal exit. -/
inductive Outcome where
  | fatal (msg : String)
  | success
  deriving Repr, DecidableEq

/-- Modelled from the spec: `cmdutil.GetJiraIssueKey` is not part of the
excerpted sources.  Spec 4.1: "if a bare numeric/short key is given, it is
combined with a configured default project prefix to form a full issue key";
otherwise the key is passed through. -/
def getJiraIssueKey (project key : String) : String :=
  if key ≠ "" ∧ key.data.all Char.isDigit then project ++ "-" ++ key else key

/-- Modelled from the spec: `cmdcommon.ActionSubmit`, the "submit" option of
the binary confirmation choice (spec 4.3). -/
def actionSubmit : String := "Submit"

/-- Modelled from the spec: `cmdcommon.ActionCancel`, the "cancel" option of
the binary confirmation choice (spec 4.3). -/
def actionCancel : String := "Cancel"

/-- Go function `parseArgsAndFlags` of `add.go`: positional arguments map, in order, to
issue key (normalized through `GetJiraIssueKey` with the configured project
key), time spent, comment, started date, started time; the flag values are
copied into the record. -/
def parseArgsAndFlags (args : List String) (flags : FlagSet) (projectKey : String) :
    AddParams :=
  { issueKey := if 1 ≤ args.length then getJiraIssueKey projectKey (args.getD 0 "") else ""
    timeSpent := if 2 ≤ args.length then args.getD 1 "" else ""
    comment := if 3 ≤ args.length then args.getD 2 "" else ""
    startedDate := if 4 ≤ args.length then args.getD 3 "" else ""
    startedTime := if 5 ≤ args.length then args.getD 4 "" else ""
    template := flags.template
    noInput := flags.noInput
    debug := flags.debug }

/-- The issue-key question of `getQuestions` (plain input, `survey.Required`). -/
def questionIssueKey : Question :=
  { name := "issueKey", message := "Issue key", defaultVal := "", required := true,
    editor := false }

/-- The time-spent question of `getQuestions` (plain input, default `"60m"`). -/
def questionTimeSpent : Question :=
  { name := "timeSpent", message := "Worklog time spent", defaultVal := "60m",
    required := false, editor := false }

/-- The comment question of `getQuestions` (Jira editor, default
`"Implementation"`, blank not allowed). -/
def questionComment : Question :=
  { name := "comment", message := "Worklog comment", defaultVal := "Implementation",
    required := false, editor := true }

/-- The started-date question of `getQuestions` (plain input, default =
current date). -/
def questionStartedDate (defaultDate : String) : Question :=
  { name := "startedDate", message := "Worklog started date (YYYY-MM-DD)",
    defaultVal := defaultDate, required := false, editor := false }

/-- The started-time question of `getQuestions` (plain input, default =
current time). -/
def questionStartedTime (defaultTime : String) : Question :=
  { name := "startedTime", message := "Worklog started time (hh:mm)",
    defaultVal := defaultTime, required := false, editor := false }

/-- The questions `getQuestions` appends before the template read and the
`noInput` early return: issue key and time spent, each only when still
empty. -/
def questionsPre (p : AddParams) : List Question :=
  (if p.issueKey = "" then [questionIssueKey] else [])
    ++ (if p.timeSpent = "" then [questionTimeSpent] else [])

/-- The questions `getQuestions` appends after the `noInput` early return
point: comment, started date and started time, each only when still empty. -/
def questionsPost (env : Env) (p : AddParams) : List Question :=
  (if p.comment = "" then [questionComment] else [])
    ++ (if p.startedDate = "" then [questionStartedDate env.currentDate] else [])
    ++ (if p.startedTime = "" then [questionStartedTime env.currentTime] else [])

/-- The `defaultBody` computation of `getQuestions`: when a template path is
set or stdin has data, the body source is read (`cmdutil.ReadFile`; a read
error is `cmdutil.Failed("Error: %s", err)`, modelled as `Except.error`);
otherwise the default body stays empty. -/
def readBody (env : Env) (p : AddParams) : Except String String :=
  if p.template ≠ "" ∨ env.stdinHasData = true then
    match env.readFileResult with
    | Except.error e => Except.error ("Error: " ++ e)
    | Except.ok b => Except.ok b
  else Except.ok ""

/-- Go method `(ac *addCmd) getQuestions` of `add.go`.  Builds the question list for the
fields still empty; reads the body source when one is active; when `noInput`
is set and the comment is empty it assigns the body read (if any) to the
comment and returns early, before the comment, started-date and started-time
questions are considered.  Returns the questions together with the (possibly
mutated) parameter record. -/
def getQuestions (env : Env) (p : AddParams) :
    Except String (List Question × AddParams) :=
  match readBody env p with
  | Except.error e => Except.error e
  | Except.ok defaultBody =>
    if p.noInput = true ∧ p.comment = "" then
      Except.ok (questionsPre p, { p with comment := defaultBody })
    else
      Except.ok (questionsPre p ++ questionsPost env p, p)

/-- The answer `survey.Ask` leaves in the answer struct for field `n`: the
user's answer when a question named `n` was asked, the zero value `""`
otherwise. -/
def answerOf (inter : Interaction) (qs : List Question) (n : String) : String :=
  if qs.any (fun q => q.name == n) then inter.answer n else ""

/-- The merge block of `add` after `survey.Ask`: each field that is still
empty receives the collected answer for its question name; non-empty fields
are left untouched. -/
def mergeAnswers (inter : Interaction) (qs : List Question) (p : AddParams) :
    AddParams :=
  { p with
    issueKey := if p.issueKey = "" then answerOf inter qs "issueKey" else p.issueKey
    comment := if p.comment = "" then answerOf inter qs "comment" else p.comment
    startedDate := if p.startedDate = "" then answerOf inter qs "startedDate" else p.startedDate
    startedTime := if p.startedTime = "" then answerOf inter qs "startedTime" else p.startedTime
    timeSpent := if p.timeSpent = "" then answerOf inter qs "timeSpent" else p.timeSpent }

/-- Go method `(ac *addCmd) isNonInteractive` of `add.go`: stdin has piped data or the
template flag is the stdin sentinel `"-"`. -/
def isNonInteractive (env : Env) (p : AddParams) : Bool :=
  env.stdinHasData || p.template == "-"

/-- Go method `(ac *addCmd) isMandatoryParamsMissing` of `add.go`. -/
def isMandatoryParamsMissing (p : AddParams) : Bool :=
  p.issueKey == ""

/-- The parameter record as it stands right before `getQuestions` is called
in `add`: parsed from args and flags, with `noInput` forced to `true` when
non-interactive mode triggered. -/
def resolvedParams (env : Env) (args : List String) (flags : FlagSet) : AddParams :=
  if isNonInteractive env (parseArgsAndFlags args flags env.projectKey) then
    { parseArgsAndFlags args flags env.projectKey with noInput := true }
  else parseArgsAndFlags args flags env.projectKey

/-- The completer block of `add`: run `getQuestions`; when the list is
non-empty, ask them (`survey.Ask` may fail) and merge the answers back into
the empty fields. -/
def completerPhase (env : Env) (inter : Interaction) (p : AddParams) :
    List Effect × Except String AddParams :=
  match getQuestions env p with
  | Except.error e => ([], Except.error e)
  | Except.ok (qs, p1) =>
    if qs = [] then ([], Except.ok p1)
    else
      ([Effect.askedQuestions (qs.map Question.name)],
        match inter.askError with
        | some e => Except.error e
        | none => Except.ok (mergeAnswers inter qs p1))

/-- The confirmation block of `add`: skipped when `noInput` is set; otherwise
the select is asked, an ask error is fatal, and the answer `ActionCancel`
aborts with "Action aborted". -/
def gatePhase (inter : Interaction) (p : AddParams) :
    List Effect × Except String Unit :=
  if p.noInput = true then ([], Except.ok ())
  else
    ([Effect.askedConfirmation],
      match inter.actionAskError with
      | some e => Except.error e
      | none =>
        if inter.actionAnswer = actionCancel then Except.error "Action aborted"
        else Except.ok ())

/-- The timestamp handed to `AddIssueWorklog`:
`startedDate + "T" + startedTime + ":00.000+0100"`. -/
def startedTimestamp (p : AddParams) : String :=
  p.startedDate ++ "T" ++ p.startedTime ++ ":00.000+0100"

/-- The submission block of `add`: call `AddIssueWorklog`; on error exit
fatally; on success print the confirmation line and the browse URL, and when
`--web` is set navigate to the issue (a navigation error is fatal). -/
def submitPhase (env : Env) (inter : Interaction) (flags : FlagSet) (p : AddParams) :
    List Effect × Outcome :=
  match inter.worklogResult with
  | some e =>
    ([Effect.calledAddIssueWorklog p.issueKey p.comment (startedTimestamp p) p.timeSpent],
      Outcome.fatal e)
  | none =>
    if flags.web = true then
      match inter.navigateResult with
      | some e =>
        ([Effect.calledAddIssueWorklog p.issueKey p.comment (startedTimestamp p) p.timeSpent,
          Effect.printedSuccess p.issueKey,
          Effect.printedURL (env.server ++ "/browse/" ++ p.issueKey),
          Effect.navigated env.server p.issueKey], Outcome.fatal e)
      | none =>
        ([Effect.calledAddIssueWorklog p.issueKey p.comment (startedTimestamp p) p.timeSpent,
          Effect.printedSuccess p.issueKey,
          Effect.printedURL (env.server ++ "/browse/" ++ p.issueKey),
          Effect.navigated env.server p.issueKey], Outcome.success)
    else
      ([Effect.calledAddIssueWorklog p.issueKey p.comment (startedTimestamp p) p.timeSpent,
        Effect.printedSuccess p.issueKey,
        Effect.printedURL (env.server ++ "/browse/" ++ p.issueKey)], Outcome.success)

/-- Go function `add` of `add.go`, end to end: parse, force `noInput` and check the
mandatory issue key in non-interactive mode, run the completer, run the
confirmation gate, submit, report. -/
def add (env : Env) (inter : Interaction) (args : List String) (flags : FlagSet) :
    List Effect × Outcome :=
  if isNonInteractive env (parseArgsAndFlags args flags env.projectKey) = true
      ∧ isMandatoryParamsMissing (parseArgsAndFlags args flags env.projectKey) = true then
    ([], Outcome.fatal "`ISSUE-KEY` is mandatory when using a non-interactive mode")
  else
    match completerPhase env inter (resolvedParams env args flags) with
    | (t1, Except.error e) => (t1, Outcome.fatal e)
    | (t1, Except.ok p2) =>
      match gatePhase inter p2 with
      | (t2, Except.error e) => (t1 ++ t2, Outcome.fatal e)
      | (t2, Except.ok _) =>
        (t1 ++ t2 ++ (submitPhase env inter flags p2).1, (submitPhase env inter flags p2).2)

/-- Field of the parameter record at positional index `i` (the order in which
`parseArgsAndFlags` consumes positional arguments). -/
def paramField (p : AddParams) : Nat → String
  | 0 => p.issueKey
  | 1 => p.timeSpent
  | 2 => p.comment
  | 3 => p.startedDate
  | 4 => p.startedTime
  | _ => ""

/-- A concrete environment for concrete runs: no piped stdin, configured
project key and server, a readable body source, fixed current date/time. -/
def envBase : Env :=
  { stdinHasData := false, projectKey := "PROJ", server := "https://jira.example.com",
    readFileResult := Except.ok "template body", currentDate := "2026-10-11",
    currentTime := "12:00" }

/-- Concrete interaction results for concrete runs: the issue-key prompt is
answered `ANS-1`, the time-spent prompt `60m`, every other prompt with the
empty string; asks succeed; the confirmation is answered `Submit`; the
worklog call and navigation succeed. -/
def interBase : Interaction :=
  { answer := fun n =>
      if n = "issueKey" then "ANS-1" else if n = "timeSpent" then "60m" else "",
    askError := none, actionAnswer := "Submit", actionAskError := none,
    worklogResult := none, navigateResult := none }

/-! ## Helper lemmas -/

theorem getJiraIssueKey_ne_empty (pk key : String) (h : key ≠ "") :
    getJiraIssueKey pk key ≠ "" := by
  unfold getJiraIssueKey
  split
  · intro hc
    have hl := congrArg String.length hc
    rw [String.length_append, String.length_append] at hl
    have h1 : ("-" : String).length = 1 := rfl
    have h0 : ("" : String).length = 0 := rfl
    rw [h1, h0] at hl
    omega
  · exact h

/-- Reduction of `getQuestions` when the body-source read fails. -/
theorem getQuestions_of_readBody_err (env : Env) (p : AddParams) (e : String)
    (hb : readBody env p = Except.error e) :
    getQuestions env p = Except.error e := by
  unfold getQuestions
  rw [hb]

/-- Reduction of `getQuestions` when the body-source read succeeds. -/
theorem getQuestions_of_readBody_ok (env : Env) (p : AddParams) (b : String)
    (hb : readBody env p = Except.ok b) :
    getQuestions env p =
      if p.noInput = true ∧ p.comment = "" then
        Except.ok (questionsPre p, { p with comment := b })
      else Except.ok (questionsPre p ++ questionsPost env p, p) := by
  unfold getQuestions
  rw [hb]

/-- The body-source read result when the underlying file read succeeds. -/
theorem readBody_of_read_ok (env : Env) (p : AddParams) (c : String)
    (hread : env.readFileResult = Except.ok c) :
    readBody env p
      = Except.ok (if p.template ≠ "" ∨ env.stdinHasData = true then c else "") := by
  unfold readBody
  rw [hread]
  split
  · rfl
  · rfl

/-- Characterization of a successful `getQuestions` run: the exact question
list and how the returned record relates to the input record. -/
theorem getQuestions_spec (env : Env) (p : AddParams) (qs : List Question)
    (p1 : AddParams) (h : getQuestions env p = Except.ok (qs, p1)) :
    qs = questionsPre p
        ++ (if p.noInput = true ∧ p.comment = "" then [] else questionsPost env p)
      ∧ p1.issueKey = p.issueKey ∧ p1.timeSpent = p.timeSpent
      ∧ p1.startedDate = p.startedDate ∧ p1.startedTime = p.startedTime
      ∧ p1.template = p.template ∧ p1.noInput = p.noInput ∧ p1.debug = p.debug
      ∧ (p.comment ≠ "" → p1.comment = p.comment) := by
  cases hb : readBody env p with
  | error e => rw [getQuestions_of_readBody_err env p e hb] at h; cases h
  | ok b =>
    rw [getQuestions_of_readBody_ok env p b hb] at h
    by_cases hni : p.noInput = true ∧ p.comment = ""
    · rw [if_pos hni] at h
      rw [Except.ok.injEq, Prod.mk.injEq] at h
      obtain ⟨hqs, hp⟩ := h
      subst hp
      rw [if_pos hni]
      exact ⟨by rw [← hqs]; simp, rfl, rfl, rfl, rfl, rfl, rfl, rfl,
        fun hc => absurd hni (by simp [hc])⟩
    · rw [if_neg hni] at h
      rw [Except.ok.injEq, Prod.mk.injEq] at h
      obtain ⟨hqs, hp⟩ := h
      subst hp
      rw [if_neg hni]
      exact ⟨hqs.symm, rfl, rfl, rfl, rfl, rfl, rfl, rfl, fun _ => rfl⟩

/-- Function `getQuestions` never fails when the body-source read succeeds. -/
theorem getQuestions_ok_of_read_ok (env : Env) (p : AddParams) (c : String)
    (hread : env.readFileResult = Except.ok c) :
    ∃ qs p1, getQuestions env p = Except.ok (qs, p1) := by
  rw [getQuestions_of_readBody_ok env p _ (readBody_of_read_ok env p c hread)]
  split
  · exact ⟨_, _, rfl⟩
  · exact ⟨_, _, rfl⟩

/-- The comment the early `noInput` return of `getQuestions` assigns: the body
read from the template or stdin when one of those sources is active, empty
otherwise. -/
theorem getQuestions_noInput_comment (env : Env) (p : AddParams) (qs : List Question)
    (p1 : AddParams) (c : String)
    (hni : p.noInput = true) (hc : p.comment = "")
    (hread : env.readFileResult = Except.ok c)
    (h : getQuestions env p = Except.ok (qs, p1)) :
    p1.comment = if p.template ≠ "" ∨ env.stdinHasData = true then c else "" := by
  rw [getQuestions_of_readBody_ok env p _ (readBody_of_read_ok env p c hread),
    if_pos ⟨hni, hc⟩] at h
  rw [Except.ok.injEq, Prod.mk.injEq] at h
  rw [← h.2]

theorem mergeAnswers_preserves (inter : Interaction) (qs : List Question)
    (p : AddParams) :
    ((p.issueKey ≠ "" → (mergeAnswers inter qs p).issueKey = p.issueKey)
      ∧ (p.timeSpent ≠ "" → (mergeAnswers inter qs p).timeSpent = p.timeSpent)
      ∧ (p.comment ≠ "" → (mergeAnswers inter qs p).comment = p.comment)
      ∧ (p.startedDate ≠ "" → (mergeAnswers inter qs p).startedDate = p.startedDate)
      ∧ (p.startedTime ≠ "" → (mergeAnswers inter qs p).startedTime = p.startedTime))
      ∧ (mergeAnswers inter qs p).noInput = p.noInput := by
  unfold mergeAnswers
  refine ⟨⟨?_, ?_, ?_, ?_, ?_⟩, rfl⟩ <;> intro hne <;> simp [hne]

/-- Answers are merged only for questions that were actually asked: a field
whose question is absent from `qs` stays at its pre-merge value even when
empty. -/
theorem answerOf_not_asked (inter : Interaction) (qs : List Question) (n : String)
    (h : ∀ q ∈ qs, q.name ≠ n) :
    answerOf inter qs n = "" := by
  unfold answerOf
  have hfalse : qs.any (fun q => q.name == n) = false := by
    rw [List.any_eq_false]
    intro q hq
    simpa using h q hq
  simp [hfalse]

/-- A field whose question was asked receives the user's answer when empty. -/
theorem answerOf_asked (inter : Interaction) (qs : List Question) (q : Question)
    (hq : q ∈ qs) : answerOf inter qs q.name = inter.answer q.name := by
  unfold answerOf
  rw [if_pos]
  rw [List.any_eq_true]
  exact ⟨q, hq, by simp⟩

/-! ### Completer phase lemmas -/

theorem completerPhase_trace (env : Env) (inter : Interaction) (p : AddParams) :
    (completerPhase env inter p).1 = []
      ∨ ∃ ns, (completerPhase env inter p).1 = [Effect.askedQuestions ns] := by
  unfold completerPhase
  cases getQuestions env p with
  | error e => left; rfl
  | ok pair =>
    obtain ⟨qs, p1⟩ := pair
    by_cases hqs : qs = []
    · left; simp [hqs]
    · right; exact ⟨qs.map Question.name, by simp [hqs]⟩

/-- Reduction of `completerPhase` when `getQuestions` fails. -/
theorem completerPhase_of_getQuestions_err (env : Env) (inter : Interaction)
    (p : AddParams) (e : String) (hg : getQuestions env p = Except.error e) :
    completerPhase env inter p = ([], Except.error e) := by
  unfold completerPhase
  rw [hg]

/-- Reduction of `completerPhase` when `getQuestions` succeeds. -/
theorem completerPhase_of_getQuestions_ok (env : Env) (inter : Interaction)
    (p : AddParams) (qs : List Question) (p1 : AddParams)
    (hg : getQuestions env p = Except.ok (qs, p1)) :
    completerPhase env inter p =
      if qs = [] then ([], Except.ok p1)
      else
        ([Effect.askedQuestions (qs.map Question.name)],
          match inter.askError with
          | some e => Except.error e
          | none => Except.ok (mergeAnswers inter qs p1)) := by
  unfold completerPhase
  rw [hg]

/-- When the issue key is empty, `getQuestions` puts the (required) issue-key
question at the head of the list. -/
theorem questionsPre_issueKey (p : AddParams) (h : p.issueKey = "") :
    ∃ rest, questionsPre p = questionIssueKey :: rest := by
  unfold questionsPre
  rw [if_pos h]
  exact ⟨_, rfl⟩

theorem completerPhase_issueKey (env : Env) (inter : Interaction) (p : AddParams)
    (t : List Effect) (p2 : AddParams)
    (h : completerPhase env inter p = (t, Except.ok p2)) :
    (p.issueKey ≠ "" → p2.issueKey = p.issueKey)
      ∧ (p.issueKey = "" → p2.issueKey = inter.answer "issueKey") := by
  cases hg : getQuestions env p with
  | error e => rw [completerPhase_of_getQuestions_err env inter p e hg] at h; cases h
  | ok pair =>
    obtain ⟨qs, p1⟩ := pair
    rw [completerPhase_of_getQuestions_ok env inter p qs p1 hg] at h
    obtain ⟨hqs, hk, -, -, -, -, -, -, -⟩ := getQuestions_spec env p qs p1 hg
    by_cases hq : qs = []
    · rw [if_pos hq] at h
      rw [Prod.mk.injEq, Except.ok.injEq] at h
      constructor
      · intro _; rw [← h.2, hk]
      · intro hke
        obtain ⟨rest, hpre⟩ := questionsPre_issueKey p hke
        rw [hqs, hpre] at hq
        simp at hq
    · rw [if_neg hq] at h
      cases hask : inter.askError with
      | some e => rw [hask] at h; rw [Prod.mk.injEq] at h; cases h.2
      | none =>
        rw [hask] at h
        rw [Prod.mk.injEq, Except.ok.injEq] at h
        have hp2 : p2 = mergeAnswers inter qs p1 := h.2.symm
        subst hp2
        constructor
        · intro hne
          unfold mergeAnswers
          rw [hk]
          simp [hne]
        · intro hke
          obtain ⟨rest, hpre⟩ := questionsPre_issueKey p hke
          have hmem : questionIssueKey ∈ qs := by
            rw [hqs, hpre]
            simp
          unfold mergeAnswers
          rw [hk]
          simp only [hke, if_pos]
          have := answerOf_asked inter qs questionIssueKey hmem
          simpa [questionIssueKey] using this

/-- When the time spent is empty, `getQuestions` puts the (defaulted)
time-spent question into the pre-return prompt list on every path. -/
theorem questionsPre_timeSpent (p : AddParams) (h : p.timeSpent = "") :
    questionTimeSpent ∈ questionsPre p ∧ questionsPre p ≠ [] := by
  unfold questionsPre
  rw [if_pos h]
  constructor
  · exact List.mem_append_right _ (List.mem_singleton.mpr rfl)
  · simp

theorem completerPhase_timeSpent (env : Env) (inter : Interaction) (p : AddParams)
    (t : List Effect) (p2 : AddParams)
    (h : completerPhase env inter p = (t, Except.ok p2)) :
    (p.timeSpent ≠ "" → p2.timeSpent = p.timeSpent)
      ∧ (p.timeSpent = "" → p2.timeSpent = inter.answer "timeSpent") := by
  cases hg : getQuestions env p with
  | error e => rw [completerPhase_of_getQuestions_err env inter p e hg] at h; cases h
  | ok pair =>
    obtain ⟨qs, p1⟩ := pair
    rw [completerPhase_of_getQuestions_ok env inter p qs p1 hg] at h
    obtain ⟨hqs, -, hts, -, -, -, -, -, -⟩ := getQuestions_spec env p qs p1 hg
    by_cases hq : qs = []
    · rw [if_pos hq] at h
      rw [Prod.mk.injEq, Except.ok.injEq] at h
      constructor
      · intro _
        rw [← h.2, hts]
      · intro hke
        obtain ⟨-, hne⟩ := questionsPre_timeSpent p hke
        rw [hqs, List.append_eq_nil] at hq
        exact absurd hq.1 hne
    · rw [if_neg hq] at h
      cases hask : inter.askError with
      | some e => rw [hask] at h; rw [Prod.mk.injEq] at h; cases h.2
      | none =>
        rw [hask] at h
        rw [Prod.mk.injEq, Except.ok.injEq] at h
        have hp2 : p2 = mergeAnswers inter qs p1 := h.2.symm
        subst hp2
        constructor
        · intro hne
          unfold mergeAnswers
          rw [hts]
          simp [hne]
        · intro hke
          obtain ⟨hmem, -⟩ := questionsPre_timeSpent p hke
          have hmemqs : questionTimeSpent ∈ qs := by
            rw [hqs]
            exact List.mem_append_left _ hmem
          unfold mergeAnswers
          rw [hts]
          simp only [hke, if_pos]
          have hans := answerOf_asked inter qs questionTimeSpent hmemqs
          simpa [questionTimeSpent] using hans

theorem completerPhase_preserves (env : Env) (inter : Interaction) (p : AddParams)
    (t : List Effect) (p2 : AddParams)
    (h : completerPhase env inter p = (t, Except.ok p2)) :
    (p.issueKey ≠ "" → p2.issueKey = p.issueKey)
      ∧ (p.timeSpent ≠ "" → p2.timeSpent = p.timeSpent)
      ∧ (p.comment ≠ "" → p2.comment = p.comment)
      ∧ (p.startedDate ≠ "" → p2.startedDate = p.startedDate)
      ∧ (p.startedTime ≠ "" → p2.startedTime = p.startedTime)
      ∧ p2.noInput = p.noInput := by
  cases hg : getQuestions env p with
  | error e => rw [completerPhase_of_getQuestions_err env inter p e hg] at h; cases h
  | ok pair =>
    obtain ⟨qs, p1⟩ := pair
    rw [completerPhase_of_getQuestions_ok env inter p qs p1 hg] at h
    obtain ⟨hqs, hk, hts, hsd, hst, htpl, hnoin, hdbg, hcm⟩ :=
      getQuestions_spec env p qs p1 hg
    by_cases hq : qs = []
    · rw [if_pos hq] at h
      rw [Prod.mk.injEq, Except.ok.injEq] at h
      rw [← h.2]
      exact ⟨fun _ => hk, fun _ => hts, fun hc => hcm hc, fun _ => hsd, fun _ => hst, hnoin⟩
    · rw [if_neg hq] at h
      cases hask : inter.askError with
      | some e => rw [hask] at h; rw [Prod.mk.injEq] at h; cases h.2
      | none =>
        rw [hask] at h
        rw [Prod.mk.injEq, Except.ok.injEq] at h
        have hp2 : p2 = mergeAnswers inter qs p1 := h.2.symm
        subst hp2
        have hm := mergeAnswers_preserves inter qs p1
        refine ⟨?_, ?_, ?_, ?_, ?_, ?_⟩
        · intro hne; rw [hm.1.1 (by rw [hk]; exact hne), hk]
        · intro hne; rw [hm.1.2.1 (by rw [hts]; exact hne), hts]
        · intro hne; rw [hm.1.2.2.1 (by rw [hcm hne]; exact hne), hcm hne]
        · intro hne; rw [hm.1.2.2.2.1 (by rw [hsd]; exact hne), hsd]
        · intro hne; rw [hm.1.2.2.2.2 (by rw [hst]; exact hne), hst]
        · rw [hm.2, hnoin]

/-! ### Gate and submit phase lemmas -/

theorem gatePhase_noInput (inter : Interaction) (p : AddParams)
    (h : p.noInput = true) : gatePhase inter p = ([], Except.ok ()) := by
  unfold gatePhase
  rw [if_pos h]

theorem gatePhase_trace (inter : Interaction) (p : AddParams) :
    (gatePhase inter p).1 = [] ∨ (gatePhase inter p).1 = [Effect.askedConfirmation] := by
  unfold gatePhase
  split
  · left; rfl
  · right; rfl

theorem gatePhase_interactive_trace (inter : Interaction) (p : AddParams)
    (h : p.noInput = false) :
    (gatePhase inter p).1 = [Effect.askedConfirmation] := by
  unfold gatePhase
  rw [if_neg (by simp [h])]

theorem gatePhase_cancel (inter : Interaction) (p : AddParams)
    (h : p.noInput = false) (hask : inter.actionAskError = none)
    (hans : inter.actionAnswer = actionCancel) :
    gatePhase inter p = ([Effect.askedConfirmation], Except.error "Action aborted") := by
  unfold gatePhase
  rw [if_neg (by simp [h]), hask, if_pos hans]


/-- The submission trace always starts with the `AddIssueWorklog` call, and
everything after it is success output. -/
theorem submitPhase_cases (env : Env) (inter : Interaction) (flags : FlagSet)
    (p : AddParams) :
    ∃ rest o, submitPhase env inter flags p
        = (Effect.calledAddIssueWorklog p.issueKey p.comment (startedTimestamp p)
            p.timeSpent :: rest, o)
      ∧ ∀ x ∈ rest, (∃ k, x = Effect.printedSuccess k) ∨ (∃ u, x = Effect.printedURL u)
          ∨ ∃ s k, x = Effect.navigated s k := by
  unfold submitPhase
  cases hw : inter.worklogResult with
  | some e => exact ⟨[], Outcome.fatal e, rfl, by simp⟩
  | none =>
    by_cases hweb : flags.web = true
    · rw [if_pos hweb]
      cases hn : inter.navigateResult with
      | some e =>
        refine ⟨_, Outcome.fatal e, rfl, ?_⟩
        intro x hx
        simp at hx
        rcases hx with hx | hx | hx
        · exact Or.inl ⟨_, hx⟩
        · exact Or.inr (Or.inl ⟨_, hx⟩)
        · exact Or.inr (Or.inr ⟨_, _, hx⟩)
      | none =>
        refine ⟨_, Outcome.success, rfl, ?_⟩
        intro x hx
        simp at hx
        rcases hx with hx | hx | hx
        · exact Or.inl ⟨_, hx⟩
        · exact Or.inr (Or.inl ⟨_, hx⟩)
        · exact Or.inr (Or.inr ⟨_, _, hx⟩)
    · rw [if_neg hweb]
      refine ⟨_, Outcome.success, rfl, ?_⟩
      intro x hx
      simp at hx
      rcases hx with hx | hx
      · exact Or.inl ⟨_, hx⟩
      · exact Or.inr (Or.inl ⟨_, hx⟩)

theorem submitPhase_call_mem (env : Env) (inter : Interaction) (flags : FlagSet)
    (p : AddParams) :
    Effect.calledAddIssueWorklog p.issueKey p.comment (startedTimestamp p) p.timeSpent
      ∈ (submitPhase env inter flags p).1 := by
  obtain ⟨rest, o, heq, -⟩ := submitPhase_cases env inter flags p
  rw [heq]
  exact List.mem_cons_self _ _

theorem submitPhase_call_inv (env : Env) (inter : Interaction) (flags : FlagSet)
    (p : AddParams) (k b s t : String)
    (h : Effect.calledAddIssueWorklog k b s t ∈ (submitPhase env inter flags p).1) :
    k = p.issueKey ∧ b = p.comment ∧ s = startedTimestamp p ∧ t = p.timeSpent := by
  obtain ⟨rest, o, heq, hrest⟩ := submitPhase_cases env inter flags p
  rw [heq] at h
  rcases List.mem_cons.mp h with hx | hx
  · injection hx with h1 h2 h3 h4
    exact ⟨h1, h2, h3, h4⟩
  · rcases hrest _ hx with ⟨k1, hk⟩ | ⟨u1, hk⟩ | ⟨s1, k1, hk⟩ <;> simp at hk

theorem submitPhase_err (env : Env) (inter : Interaction) (flags : FlagSet)
    (p : AddParams) (e : String) (h : inter.worklogResult = some e) :
    submitPhase env inter flags p
      = ([Effect.calledAddIssueWorklog p.issueKey p.comment (startedTimestamp p)
          p.timeSpent], Outcome.fatal e) := by
  unfold submitPhase
  rw [h]

theorem submitPhase_no_asks (env : Env) (inter : Interaction) (flags : FlagSet)
    (p : AddParams) :
    (∀ ns, Effect.askedQuestions ns ∉ (submitPhase env inter flags p).1)
      ∧ Effect.askedConfirmation ∉ (submitPhase env inter flags p).1 := by
  obtain ⟨rest, o, heq, hrest⟩ := submitPhase_cases env inter flags p
  rw [heq]
  constructor
  · intro ns hmem
    rcases List.mem_cons.mp hmem with hx | hx
    · cases hx
    · rcases hrest _ hx with ⟨k1, hk⟩ | ⟨u1, hk⟩ | ⟨s1, k1, hk⟩ <;> simp at hk
  · intro hmem
    rcases List.mem_cons.mp hmem with hx | hx
    · cases hx
    · rcases hrest _ hx with ⟨k1, hk⟩ | ⟨u1, hk⟩ | ⟨s1, k1, hk⟩ <;> simp at hk

/-! ### Structure of a whole invocation -/

theorem add_mandatory (env : Env) (inter : Interaction) (args : List String)
    (flags : FlagSet)
    (hm : isNonInteractive env (parseArgsAndFlags args flags env.projectKey) = true
        ∧ isMandatoryParamsMissing (parseArgsAndFlags args flags env.projectKey) = true) :
    add env inter args flags
      = ([], Outcome.fatal "`ISSUE-KEY` is mandatory when using a non-interactive mode") := by
  unfold add
  rw [if_pos hm]

theorem add_of_completer_err (env : Env) (inter : Interaction) (args : List String)
    (flags : FlagSet) (t1 : List Effect) (e : String)
    (hm : ¬(isNonInteractive env (parseArgsAndFlags args flags env.projectKey) = true
        ∧ isMandatoryParamsMissing (parseArgsAndFlags args flags env.projectKey) = true))
    (hc : completerPhase env inter (resolvedParams env args flags) = (t1, Except.error e)) :
    add env inter args flags = (t1, Outcome.fatal e) := by
  unfold add
  rw [if_neg hm]
  simp only [hc]

theorem add_of_gate_err (env : Env) (inter : Interaction) (args : List String)
    (flags : FlagSet) (t1 t2 : List Effect) (p2 : AddParams) (e : String)
    (hm : ¬(isNonInteractive env (parseArgsAndFlags args flags env.projectKey) = true
        ∧ isMandatoryParamsMissing (parseArgsAndFlags args flags env.projectKey) = true))
    (hc : completerPhase env inter (resolvedParams env args flags) = (t1, Except.ok p2))
    (hg : gatePhase inter p2 = (t2, Except.error e)) :
    add env inter args flags = (t1 ++ t2, Outcome.fatal e) := by
  unfold add
  rw [if_neg hm]
  simp only [hc, hg]

theorem add_of_gate_ok (env : Env) (inter : Interaction) (args : List String)
    (flags : FlagSet) (t1 t2 : List Effect) (p2 : AddParams)
    (hm : ¬(isNonInteractive env (parseArgsAndFlags args flags env.projectKey) = true
        ∧ isMandatoryParamsMissing (parseArgsAndFlags args flags env.projectKey) = true))
    (hc : completerPhase env inter (resolvedParams env args flags) = (t1, Except.ok p2))
    (hg : gatePhase inter p2 = (t2, Except.ok ())) :
    add env inter args flags
      = (t1 ++ t2 ++ (submitPhase env inter flags p2).1,
         (submitPhase env inter flags p2).2) := by
  unfold add
  rw [if_neg hm]
  simp only [hc, hg]

/-- Every invocation either exits fatally with a trace made of prompt effects
only, or reaches submission with a record produced by the completer and
accepted by the gate. -/
theorem add_shape (env : Env) (inter : Interaction) (args : List String)
    (flags : FlagSet) :
    (∃ e, (add env inter args flags).2 = Outcome.fatal e
        ∧ ∀ x ∈ (add env inter args flags).1,
            (∃ ns, x = Effect.askedQuestions ns) ∨ x = Effect.askedConfirmation)
    ∨ (∃ t1 t2 p2,
        ¬(isNonInteractive env (parseArgsAndFlags args flags env.projectKey) = true
            ∧ isMandatoryParamsMissing (parseArgsAndFlags args flags env.projectKey) = true)
        ∧ completerPhase env inter (resolvedParams env args flags) = (t1, Except.ok p2)
        ∧ gatePhase inter p2 = (t2, Except.ok ())
        ∧ add env inter args flags
            = (t1 ++ t2 ++ (submitPhase env inter flags p2).1,
               (submitPhase env inter flags p2).2)) := by
  by_cases hm : isNonInteractive env (parseArgsAndFlags args flags env.projectKey) = true
      ∧ isMandatoryParamsMissing (parseArgsAndFlags args flags env.projectKey) = true
  · left
    rw [add_mandatory env inter args flags hm]
    exact ⟨_, rfl, by simp⟩
  · have ht1 := completerPhase_trace env inter (resolvedParams env args flags)
    cases hc : completerPhase env inter (resolvedParams env args flags) with
    | mk t1 r1 =>
      rw [hc] at ht1
      dsimp only at ht1
      cases r1 with
      | error e =>
        left
        rw [add_of_completer_err env inter args flags t1 e hm hc]
        refine ⟨e, rfl, ?_⟩
        intro x hx
        rcases ht1 with h1 | ⟨ns, h1⟩ <;> rw [h1] at hx
        · cases hx
        · rcases List.mem_singleton.mp hx with h
          exact Or.inl ⟨ns, h⟩
      | ok p2 =>
        have ht2 := gatePhase_trace inter p2
        cases hgp : gatePhase inter p2 with
        | mk t2 r2 =>
          rw [hgp] at ht2
          dsimp only at ht2
          cases r2 with
          | error e =>
            left
            rw [add_of_gate_err env inter args flags t1 t2 p2 e hm hc hgp]
            refine ⟨e, rfl, ?_⟩
            intro x hx
            rcases List.mem_append.mp hx with hx | hx
            · rcases ht1 with h1 | ⟨ns, h1⟩ <;> rw [h1] at hx
              · cases hx
              · rcases List.mem_singleton.mp hx with h
                exact Or.inl ⟨ns, h⟩
            · rcases ht2 with h2 | h2 <;> rw [h2] at hx
              · cases hx
              · rcases List.mem_singleton.mp hx with h
                exact Or.inr h
          | ok u =>
            right
            cases u
            exact ⟨t1, t2, p2, hm, rfl, hgp,
              add_of_gate_ok env inter args flags t1 t2 p2 hm hc hgp⟩

/-! ### Resolved-parameter lemmas -/

theorem resolvedParams_fields (env : Env) (args : List String) (flags : FlagSet) :
    (resolvedParams env args flags).issueKey
        = (parseArgsAndFlags args flags env.projectKey).issueKey
      ∧ (resolvedParams env args flags).timeSpent
        = (parseArgsAndFlags args flags env.projectKey).timeSpent
      ∧ (resolvedParams env args flags).comment
        = (parseArgsAndFlags args flags env.projectKey).comment
      ∧ (resolvedParams env args flags).startedDate
        = (parseArgsAndFlags args flags env.projectKey).startedDate
      ∧ (resolvedParams env args flags).startedTime
        = (parseArgsAndFlags args flags env.projectKey).startedTime
      ∧ (resolvedParams env args flags).template
        = (parseArgsAndFlags args flags env.projectKey).template := by
  unfold resolvedParams
  split <;> exact ⟨rfl, rfl, rfl, rfl, rfl, rfl⟩

theorem resolvedParams_noInput (env : Env) (args : List String) (flags : FlagSet) :
    (resolvedParams env args flags).noInput
      = ((parseArgsAndFlags args flags env.projectKey).noInput
          || isNonInteractive env (parseArgsAndFlags args flags env.projectKey)) := by
  unfold resolvedParams
  split
  · rename_i h
    rw [h]
    simp
  · rename_i h
    rw [Bool.not_eq_true] at h
    rw [h]
    simp

theorem resolvedParams_of_interactive (env : Env) (args : List String) (flags : FlagSet)
    (h : isNonInteractive env (parseArgsAndFlags args flags env.projectKey) = false) :
    resolvedParams env args flags = parseArgsAndFlags args flags env.projectKey := by
  unfold resolvedParams
  rw [h]
  simp

/-! ### Question membership lemmas -/

theorem questionsPre_mem (p : AddParams) (q : Question) (h : q ∈ questionsPre p) :
    q = questionIssueKey ∨ q = questionTimeSpent := by
  unfold questionsPre at h
  rw [List.mem_append] at h
  rcases h with h | h
  · split at h
    · exact Or.inl (List.mem_singleton.mp h)
    · cases h
  · split at h
    · exact Or.inr (List.mem_singleton.mp h)
    · cases h

/-- A successful completer needs only a readable body source and a successful
`survey.Ask`. -/
theorem completerPhase_ok_exists (env : Env) (inter : Interaction) (p : AddParams)
    (c : String) (hread : env.readFileResult = Except.ok c)
    (hask : inter.askError = none) :
    ∃ t1 p2, completerPhase env inter p = (t1, Except.ok p2) := by
  obtain ⟨qs, p1, hg⟩ := getQuestions_ok_of_read_ok env p c hread
  rw [completerPhase_of_getQuestions_ok env inter p qs p1 hg]
  by_cases hq : qs = []
  · rw [if_pos hq]
    exact ⟨_, _, rfl⟩
  · rw [if_neg hq, hask]
    exact ⟨_, _, rfl⟩

/-- Every effect in a trace is a prompt effect, or belongs to the submission
phase of a record the completer produced. -/
theorem add_mem_cases (env : Env) (inter : Interaction) (args : List String)
    (flags : FlagSet) (x : Effect) (hx : x ∈ (add env inter args flags).1) :
    (∃ ns, x = Effect.askedQuestions ns) ∨ x = Effect.askedConfirmation
      ∨ ∃ t1 p2, completerPhase env inter (resolvedParams env args flags)
            = (t1, Except.ok p2)
          ∧ (add env inter args flags).2 = (submitPhase env inter flags p2).2
          ∧ x ∈ (submitPhase env inter flags p2).1 := by
  rcases add_shape env inter args flags with ⟨e, -, hall⟩ | ⟨t1, t2, p2, -, hc, hg, heq⟩
  · rcases hall x hx with h | h
    · exact Or.inl h
    · exact Or.inr (Or.inl h)
  · rw [heq] at hx
    dsimp only at hx
    rcases List.mem_append.mp hx with hx | hx
    · rcases List.mem_append.mp hx with hx | hx
      · have ht1 := completerPhase_trace env inter (resolvedParams env args flags)
        rw [hc] at ht1
        dsimp only at ht1
        rcases ht1 with h1 | ⟨ns, h1⟩ <;> rw [h1] at hx
        · cases hx
        · exact Or.inl ⟨ns, List.mem_singleton.mp hx⟩
      · have ht2 := gatePhase_trace inter p2
        rw [hg] at ht2
        dsimp only at ht2
        rcases ht2 with h2 | h2 <;> rw [h2] at hx
        · cases hx
        · exact Or.inr (Or.inl (List.mem_singleton.mp hx))
    · exact Or.inr (Or.inr ⟨t1, p2, hc, by rw [heq], hx⟩)

/-! ## Claim theorems -/

/-- C2: in non-interactive mode (piped stdin, or template flag equal to the
stdin sentinel `-`) with an empty resolved issue key, the workflow fails
fatally with an empty effect trace: no prompt is generated and the
worklog-creation call is never attempted. -/
theorem C2_nonInteractive_missing_key_aborts (env : Env) (inter : Interaction)
    (args : List String) (flags : FlagSet)
    (hni : isNonInteractive env (parseArgsAndFlags args flags env.projectKey) = true)
    (hkey : (parseArgsAndFlags args flags env.projectKey).issueKey = "") :
    add env inter args flags
      = ([], Outcome.fatal "`ISSUE-KEY` is mandatory when using a non-interactive mode") := by
  apply add_mandatory
  refine ⟨hni, ?_⟩
  unfold isMandatoryParamsMissing
  rw [hkey]
  decide

/-- Witness for C2: piped stdin and no arguments. -/
theorem C2_witness :
    add { envBase with stdinHasData := true } interBase []
        { web := false, template := "", noInput := false, debug := false }
      = ([], Outcome.fatal "`ISSUE-KEY` is mandatory when using a non-interactive mode") :=
  C2_nonInteractive_missing_key_aborts { envBase with stdinHasData := true } interBase []
    { web := false, template := "", noInput := false, debug := false }
    (by decide) (by decide)

/-- C3: for every positional argument list of length 0 through 5 the Argument
Resolver populates exactly the first `n` fields in the order issue key (after
project-key normalization), time spent, comment, started date, started time,
and leaves every field beyond position `n` empty. -/
theorem C3_parse_positional_exact (args : List String) (flags : FlagSet) (pk : String)
    (hlen : args.length ≤ 5) :
    ∀ i : Nat, i < 5 →
      paramField (parseArgsAndFlags args flags pk) i
        = if i < args.length then
            (if i = 0 then getJiraIssueKey pk (args.getD 0 "") else args.getD i "")
          else "" := by
  intro i hi
  interval_cases i <;>
    simp [paramField, parseArgsAndFlags, Nat.lt_iff_add_one_le]

/-- Witness for C3: three arguments populate exactly the first three fields. -/
theorem C3_witness :
    (["7", "2h", "did it"] : List String).length ≤ 5
      ∧ ∀ i : Nat, i < 5 →
          paramField (parseArgsAndFlags ["7", "2h", "did it"]
              { web := false, template := "", noInput := false, debug := false } "PROJ") i
            = if i < (["7", "2h", "did it"] : List String).length then
                (if i = 0 then
                  getJiraIssueKey "PROJ" ((["7", "2h", "did it"] : List String).getD 0 "")
                 else (["7", "2h", "did it"] : List String).getD i "")
              else "" :=
  ⟨by decide, C3_parse_positional_exact ["7", "2h", "did it"]
    { web := false, template := "", noInput := false, debug := false } "PROJ" (by decide)⟩

/-- C10: when the worklog-creation call returns an error the invocation ends
fatally, and none of the three success effects — the confirmation line, the
browse URL, browser navigation — ever appears in the trace. -/
theorem C10_worklog_error_no_success (env : Env) (inter : Interaction)
    (args : List String) (flags : FlagSet) (e : String)
    (herr : inter.worklogResult = some e) :
    (∀ k b s t, Effect.calledAddIssueWorklog k b s t ∈ (add env inter args flags).1 →
        (add env inter args flags).2 = Outcome.fatal e)
    ∧ (∀ k, Effect.printedSuccess k ∉ (add env inter args flags).1)
    ∧ (∀ u, Effect.printedURL u ∉ (add env inter args flags).1)
    ∧ (∀ s k, Effect.navigated s k ∉ (add env inter args flags).1) := by
  refine ⟨?_, ?_, ?_, ?_⟩
  · intro k b s t hmem
    rcases add_mem_cases env inter args flags _ hmem with ⟨ns, h⟩ | h | ⟨t1, p2, -, hout, -⟩
    · exact Effect.noConfusion h
    · exact Effect.noConfusion h
    · rw [hout, submitPhase_err env inter flags p2 e herr]
  · intro k hmem
    rcases add_mem_cases env inter args flags _ hmem with ⟨ns, h⟩ | h | ⟨t1, p2, -, -, hmem2⟩
    · exact Effect.noConfusion h
    · exact Effect.noConfusion h
    · rw [submitPhase_err env inter flags p2 e herr] at hmem2
      exact Effect.noConfusion (List.mem_singleton.mp hmem2)
  · intro u hmem
    rcases add_mem_cases env inter args flags _ hmem with ⟨ns, h⟩ | h | ⟨t1, p2, -, -, hmem2⟩
    · exact Effect.noConfusion h
    · exact Effect.noConfusion h
    · rw [submitPhase_err env inter flags p2 e herr] at hmem2
      exact Effect.noConfusion (List.mem_singleton.mp hmem2)
  · intro s k hmem
    rcases add_mem_cases env inter args flags _ hmem with ⟨ns, h⟩ | h | ⟨t1, p2, -, -, hmem2⟩
    · exact Effect.noConfusion h
    · exact Effect.noConfusion h
    · rw [submitPhase_err env inter flags p2 e herr] at hmem2
      exact Effect.noConfusion (List.mem_singleton.mp hmem2)

/-- Witness for C10: a failing worklog call on a fully-specified invocation. -/
theorem C10_witness :
    ({ interBase with worklogResult := some "http 500" } : Interaction).worklogResult
        = some "http 500"
      ∧ ((∀ k b s t, Effect.calledAddIssueWorklog k b s t
            ∈ (add envBase { interBase with worklogResult := some "http 500" }
                ["KEY-1", "2h", "c", "2023-01-01", "09:00"]
                { web := true, template := "", noInput := false, debug := false }).1 →
          (add envBase { interBase with worklogResult := some "http 500" }
              ["KEY-1", "2h", "c", "2023-01-01", "09:00"]
              { web := true, template := "", noInput := false, debug := false }).2
            = Outcome.fatal "http 500")
        ∧ (∀ k, Effect.printedSuccess k
            ∉ (add envBase { interBase with worklogResult := some "http 500" }
                ["KEY-1", "2h", "c", "2023-01-01", "09:00"]
                { web := true, template := "", noInput := false, debug := false }).1)
        ∧ (∀ u, Effect.printedURL u
            ∉ (add envBase { interBase with worklogResult := some "http 500" }
                ["KEY-1", "2h", "c", "2023-01-01", "09:00"]
                { web := true, template := "", noInput := false, debug := false }).1)
        ∧ (∀ s k, Effect.navigated s k
            ∉ (add envBase { interBase with worklogResult := some "http 500" }
                ["KEY-1", "2h", "c", "2023-01-01", "09:00"]
                { web := true, template := "", noInput := false, debug := false }).1)) :=
  ⟨rfl, C10_worklog_error_no_success envBase
    { interBase with worklogResult := some "http 500" }
    ["KEY-1", "2h", "c", "2023-01-01", "09:00"]
    { web := true, template := "", noInput := false, debug := false } "http 500" rfl⟩

/-- C4: the scenario invocation `worklog add PROJ-1 "2h" "Did work"
"2023-01-01" "09:00"` — non-interactive mode not triggered, template flag
unset, submission confirmed — hands the worklog-creation call the issue key
`PROJ-1`, body `Did work`, the combined timestamp
`2023-01-01T09:00:00.000+0100` and duration `2h`. -/
theorem C4_scenario_submission (env : Env) (inter : Interaction) (web debug : Bool)
    (hstdin : env.stdinHasData = false)
    (haskerr : inter.actionAskError = none)
    (hconfirm : inter.actionAnswer = actionSubmit) :
    Effect.calledAddIssueWorklog "PROJ-1" "Did work" "2023-01-01T09:00:00.000+0100" "2h"
      ∈ (add env inter ["PROJ-1", "2h", "Did work", "2023-01-01", "09:00"]
          { web := web, template := "", noInput := false, debug := debug }).1 := by
  have hkey : getJiraIssueKey env.projectKey "PROJ-1" = "PROJ-1" := by
    unfold getJiraIssueKey
    rw [if_neg]
    intro h
    exact absurd h.2 (by decide)
  have hp0 : parseArgsAndFlags ["PROJ-1", "2h", "Did work", "2023-01-01", "09:00"]
        { web := web, template := "", noInput := false, debug := debug } env.projectKey
      = { issueKey := "PROJ-1", comment := "Did work", startedDate := "2023-01-01",
          startedTime := "09:00", timeSpent := "2h", template := "", noInput := false,
          debug := debug } := by
    simp [parseArgsAndFlags, hkey]
  have hni : isNonInteractive env
      (parseArgsAndFlags ["PROJ-1", "2h", "Did work", "2023-01-01", "09:00"]
        { web := web, template := "", noInput := false, debug := debug } env.projectKey)
      = false := by
    unfold isNonInteractive
    rw [hp0, hstdin]
    rfl
  have hm : ¬(isNonInteractive env
        (parseArgsAndFlags ["PROJ-1", "2h", "Did work", "2023-01-01", "09:00"]
          { web := web, template := "", noInput := false, debug := debug } env.projectKey)
        = true
      ∧ isMandatoryParamsMissing
        (parseArgsAndFlags ["PROJ-1", "2h", "Did work", "2023-01-01", "09:00"]
          { web := web, template := "", noInput := false, debug := debug } env.projectKey)
        = true) := by
    intro h
    rw [hni] at h
    exact absurd h.1 (by decide)
  have hres : resolvedParams env ["PROJ-1", "2h", "Did work", "2023-01-01", "09:00"]
        { web := web, template := "", noInput := false, debug := debug }
      = { issueKey := "PROJ-1", comment := "Did work", startedDate := "2023-01-01",
          startedTime := "09:00", timeSpent := "2h", template := "", noInput := false,
          debug := debug } := by
    rw [resolvedParams_of_interactive _ _ _ hni, hp0]
  have hrb : readBody env
      { issueKey := "PROJ-1", comment := "Did work", startedDate := "2023-01-01",
        startedTime := "09:00", timeSpent := "2h", template := "", noInput := false,
        debug := debug } = Except.ok "" := by
    unfold readBody
    rw [if_neg]
    intro h
    rcases h with h | h
    · exact h rfl
    · rw [hstdin] at h
      exact absurd h (by decide)
  have hgq : getQuestions env
      { issueKey := "PROJ-1", comment := "Did work", startedDate := "2023-01-01",
        startedTime := "09:00", timeSpent := "2h", template := "", noInput := false,
        debug := debug }
      = Except.ok ([],
        { issueKey := "PROJ-1", comment := "Did work", startedDate := "2023-01-01",
          startedTime := "09:00", timeSpent := "2h", template := "", noInput := false,
          debug := debug }) := by
    rw [getQuestions_of_readBody_ok env _ "" hrb]
    rw [if_neg (by intro h; simp at h)]
    simp [questionsPre, questionsPost]
  have hc : completerPhase env inter
      (resolvedParams env ["PROJ-1", "2h", "Did work", "2023-01-01", "09:00"]
        { web := web, template := "", noInput := false, debug := debug })
      = ([], Except.ok
        { issueKey := "PROJ-1", comment := "Did work", startedDate := "2023-01-01",
          startedTime := "09:00", timeSpent := "2h", template := "", noInput := false,
          debug := debug }) := by
    rw [hres]
    rw [completerPhase_of_getQuestions_ok env inter _ _ _ hgq]
    rw [if_pos rfl]
  have hgate : gatePhase inter
      { issueKey := "PROJ-1", comment := "Did work", startedDate := "2023-01-01",
        startedTime := "09:00", timeSpent := "2h", template := "", noInput := false,
        debug := debug }
      = ([Effect.askedConfirmation], Except.ok ()) := by
    unfold gatePhase
    rw [if_neg (by simp)]
    rw [haskerr, hconfirm]
    rw [if_neg (by decide)]
  have hadd := add_of_gate_ok env inter
    ["PROJ-1", "2h", "Did work", "2023-01-01", "09:00"]
    { web := web, template := "", noInput := false, debug := debug }
    [] [Effect.askedConfirmation] _ hm hc hgate
  rw [hadd]
  have hmem := submitPhase_call_mem env inter
    { web := web, template := "", noInput := false, debug := debug }
    { issueKey := "PROJ-1", comment := "Did work", startedDate := "2023-01-01",
      startedTime := "09:00", timeSpent := "2h", template := "", noInput := false,
      debug := debug }
  refine List.mem_append.mpr (Or.inr ?_)
  exact hmem

/-- Witness for C4: the scenario run in the base environment. -/
theorem C4_witness :
    envBase.stdinHasData = false
      ∧ interBase.actionAskError = none
      ∧ interBase.actionAnswer = actionSubmit
      ∧ Effect.calledAddIssueWorklog "PROJ-1" "Did work" "2023-01-01T09:00:00.000+0100" "2h"
        ∈ (add envBase interBase ["PROJ-1", "2h", "Did work", "2023-01-01", "09:00"]
            { web := false, template := "", noInput := false, debug := false }).1 :=
  ⟨rfl, rfl, rfl,
    C4_scenario_submission envBase interBase false false rfl rfl rfl⟩

theorem getD_ne_of_all_ne (args : List String) (i : Nat) (hi : i < args.length)
    (hne : ∀ a ∈ args, a ≠ "") : args.getD i "" ≠ "" := by
  rw [List.getD_eq_getElem args "" hi]
  exact hne _ (List.getElem_mem hi)

/-- C8: when all five fields are supplied as non-empty positional arguments
the completer generates zero prompts: the question list is empty, and no
interactive question is ever asked. -/
theorem C8_full_args_zero_prompts (env : Env) (inter : Interaction)
    (args : List String) (flags : FlagSet)
    (hlen : args.length = 5)
    (hne : ∀ a ∈ args, a ≠ "") :
    (∀ qs p1, getQuestions env (resolvedParams env args flags) = Except.ok (qs, p1) →
        qs = [])
    ∧ ∀ ns, Effect.askedQuestions ns ∉ (add env inter args flags).1 := by
  have hk : (parseArgsAndFlags args flags env.projectKey).issueKey ≠ "" := by
    unfold parseArgsAndFlags
    dsimp only
    rw [if_pos (by omega)]
    exact getJiraIssueKey_ne_empty _ _ (getD_ne_of_all_ne args 0 (by omega) hne)
  have hts : (parseArgsAndFlags args flags env.projectKey).timeSpent ≠ "" := by
    unfold parseArgsAndFlags
    dsimp only
    rw [if_pos (by omega)]
    exact getD_ne_of_all_ne args 1 (by omega) hne
  have hcm : (parseArgsAndFlags args flags env.projectKey).comment ≠ "" := by
    unfold parseArgsAndFlags
    dsimp only
    rw [if_pos (by omega)]
    exact getD_ne_of_all_ne args 2 (by omega) hne
  have hsd : (parseArgsAndFlags args flags env.projectKey).startedDate ≠ "" := by
    unfold parseArgsAndFlags
    dsimp only
    rw [if_pos (by omega)]
    exact getD_ne_of_all_ne args 3 (by omega) hne
  have hst : (parseArgsAndFlags args flags env.projectKey).startedTime ≠ "" := by
    unfold parseArgsAndFlags
    dsimp only
    rw [if_pos (by omega)]
    exact getD_ne_of_all_ne args 4 (by omega) hne
  obtain ⟨hk', hts', hcm', hsd', hst', -⟩ := resolvedParams_fields env args flags
  have hzero : ∀ qs p1,
      getQuestions env (resolvedParams env args flags) = Except.ok (qs, p1) → qs = [] := by
    intro qs p1 hg
    obtain ⟨hqs, -⟩ := getQuestions_spec env _ qs p1 hg
    rw [hqs]
    unfold questionsPre questionsPost
    rw [if_neg (by rw [hk']; exact hk), if_neg (by rw [hts']; exact hts)]
    by_cases hearly : (resolvedParams env args flags).noInput = true
        ∧ (resolvedParams env args flags).comment = ""
    · rw [if_pos hearly]
      rfl
    · rw [if_neg hearly]
      rw [if_neg (by rw [hcm']; exact hcm), if_neg (by rw [hsd']; exact hsd),
        if_neg (by rw [hst']; exact hst)]
      rfl
  refine ⟨hzero, ?_⟩
  intro ns hmem
  by_cases hm : isNonInteractive env (parseArgsAndFlags args flags env.projectKey) = true
      ∧ isMandatoryParamsMissing (parseArgsAndFlags args flags env.projectKey) = true
  · rw [add_mandatory env inter args flags hm] at hmem
    cases hmem
  · cases hg : getQuestions env (resolvedParams env args flags) with
    | error e =>
      rw [add_of_completer_err env inter args flags [] e hm
        (completerPhase_of_getQuestions_err env inter _ e hg)] at hmem
      cases hmem
    | ok pair =>
      obtain ⟨qs, p1⟩ := pair
      have hq0 : qs = [] := hzero qs p1 hg
      subst hq0
      have hc : completerPhase env inter (resolvedParams env args flags)
          = ([], Except.ok p1) := by
        rw [completerPhase_of_getQuestions_ok env inter _ [] p1 hg]
        rw [if_pos rfl]
      cases hgp : gatePhase inter p1 with
      | mk t2 r2 =>
        have ht2 := gatePhase_trace inter p1
        rw [hgp] at ht2
        dsimp only at ht2
        cases r2 with
        | error e =>
          rw [add_of_gate_err env inter args flags [] t2 p1 e hm hc hgp] at hmem
          dsimp only at hmem
          rcases List.mem_append.mp hmem with hx | hx
          · cases hx
          · rcases ht2 with h2 | h2 <;> rw [h2] at hx
            · cases hx
            · exact Effect.noConfusion (List.mem_singleton.mp hx)
        | ok u =>
          cases u
          rw [add_of_gate_ok env inter args flags [] t2 p1 hm hc hgp] at hmem
          dsimp only at hmem
          rcases List.mem_append.mp hmem with hx | hx
          · rcases List.mem_append.mp hx with hx | hx
            · cases hx
            · rcases ht2 with h2 | h2 <;> rw [h2] at hx
              · cases hx
              · exact Effect.noConfusion (List.mem_singleton.mp hx)
          · exact (submitPhase_no_asks env inter flags p1).1 ns hx

/-- Witness for C8: five non-empty arguments, no question asked. -/
theorem C8_witness :
    (["KEY-1", "2h", "c", "2023-01-01", "09:00"] : List String).length = 5
      ∧ ((∀ qs p1,
          getQuestions envBase (resolvedParams envBase
              ["KEY-1", "2h", "c", "2023-01-01", "09:00"]
              { web := false, template := "", noInput := false, debug := false })
            = Except.ok (qs, p1) → qs = [])
        ∧ ∀ ns, Effect.askedQuestions ns
            ∉ (add envBase interBase ["KEY-1", "2h", "c", "2023-01-01", "09:00"]
                { web := false, template := "", noInput := false, debug := false }).1) :=
  ⟨rfl, C8_full_args_zero_prompts envBase interBase
    ["KEY-1", "2h", "c", "2023-01-01", "09:00"]
    { web := false, template := "", noInput := false, debug := false }
    rfl (by decide)⟩

/-- C1 counterexample: with the `--no-input` flag set (non-interactive mode
not triggered, no template), the invocation `worklog add KEY-1` reaches the
worklog-creation call with an EMPTY comment and a timestamp built from empty
started-date and started-time components — refuting the claim that all of
issue key, time spent, comment and start timestamp components are non-empty
whenever submission proceeds. -/
theorem C1_counterexample :
    Effect.calledAddIssueWorklog "KEY-1" "" "T:00.000+0100" "60m"
      ∈ (add envBase
          { interBase with answer := fun n => if n = "timeSpent" then "60m" else "" }
          ["KEY-1"] { web := false, template := "", noInput := true, debug := false }).1
      ∧ (add envBase
          { interBase with answer := fun n => if n = "timeSpent" then "60m" else "" }
          ["KEY-1"] { web := false, template := "", noInput := true, debug := false }).2
        = Outcome.success := by
  decide

/-- C1 (amended): whenever submission proceeds, the issue key AND the time
spent handed to the worklog-creation call are non-empty — given the prompt
engine's boundary contract that the `Required`-validated issue-key prompt and
the `Default: "60m"` time-spent prompt cannot return empty answers (both
questions are generated on every path whenever their field is empty, the
time-spent one even before the `noInput` early return) — and whenever
non-interactive mode cannot fill the issue key the workflow aborts fatally
before ever invoking the completer, with an empty effect trace.  The comment,
started date and started time are NOT guaranteed non-empty at submission
(see the counterexample). -/
theorem C1_amended_required_fields_nonEmpty (env : Env) (inter : Interaction)
    (args : List String) (flags : FlagSet)
    (hreq : inter.answer "issueKey" ≠ "")
    (hts : inter.answer "timeSpent" ≠ "") :
    (∀ k b s t, Effect.calledAddIssueWorklog k b s t ∈ (add env inter args flags).1 →
        k ≠ "" ∧ t ≠ "")
    ∧ (isNonInteractive env (parseArgsAndFlags args flags env.projectKey) = true →
        (parseArgsAndFlags args flags env.projectKey).issueKey = "" →
        add env inter args flags
          = ([], Outcome.fatal "`ISSUE-KEY` is mandatory when using a non-interactive mode")) := by
  constructor
  · intro k b s t hmem
    rcases add_mem_cases env inter args flags _ hmem with ⟨ns, h⟩ | h | ⟨t1, p2, hc, -, hmem2⟩
    · exact Effect.noConfusion h
    · exact Effect.noConfusion h
    · obtain ⟨hkk, -, -, htt⟩ := submitPhase_call_inv env inter flags p2 k b s t hmem2
      constructor
      · obtain ⟨hne, hemp⟩ := completerPhase_issueKey env inter _ t1 p2 hc
        by_cases hkey : (resolvedParams env args flags).issueKey = ""
        · rw [hkk, hemp hkey]
          exact hreq
        · rw [hkk, hne hkey]
          exact hkey
      · obtain ⟨hne, hemp⟩ := completerPhase_timeSpent env inter _ t1 p2 hc
        by_cases hkey : (resolvedParams env args flags).timeSpent = ""
        · rw [htt, hemp hkey]
          exact hts
        · rw [htt, hne hkey]
          exact hkey
  · intro hni hkey
    apply add_mandatory
    refine ⟨hni, ?_⟩
    unfold isMandatoryParamsMissing
    rw [hkey]
    decide

/-- Witness for C1 (amended): the base interaction answers the issue-key and
time-spent prompts with non-empty strings. -/
theorem C1_amended_witness :
    interBase.answer "issueKey" ≠ ""
      ∧ interBase.answer "timeSpent" ≠ ""
      ∧ ((∀ k b s t, Effect.calledAddIssueWorklog k b s t
            ∈ (add envBase interBase []
                { web := false, template := "", noInput := false, debug := false }).1 →
          k ≠ "" ∧ t ≠ "")
        ∧ (isNonInteractive envBase (parseArgsAndFlags []
              { web := false, template := "", noInput := false, debug := false }
              envBase.projectKey) = true →
            (parseArgsAndFlags []
              { web := false, template := "", noInput := false, debug := false }
              envBase.projectKey).issueKey = "" →
            add envBase interBase []
              { web := false, template := "", noInput := false, debug := false }
              = ([], Outcome.fatal
                  "`ISSUE-KEY` is mandatory when using a non-interactive mode"))) :=
  ⟨by decide, by decide, C1_amended_required_fields_nonEmpty envBase interBase []
    { web := false, template := "", noInput := false, debug := false }
    (by decide) (by decide)⟩

/-- C5 counterexample: with an explicit comment argument AND a template flag
pointing at an unreadable file, the workflow aborts fatally before any prompt
or submission — the template source DOES introduce an additional failure even
though its content would have been ignored. -/
theorem C5_counterexample :
    add { envBase with readFileResult := Except.error "read failure" } interBase
        ["KEY-1", "2h", "Did work"]
        { web := false, template := "/bad/path", noInput := false, debug := false }
      = ([], Outcome.fatal "Error: read failure") := by
  decide

/-- C5 (amended): when the template source is readable, an explicit comment
argument always becomes the submitted body — the template content has no
effect on the body and no comment prompt is generated.  The template file is
still read, however, so a read error aborts the workflow even with an
explicit comment argument (see the counterexample). -/
theorem C5_explicit_comment_wins (env : Env) (inter : Interaction)
    (args : List String) (flags : FlagSet) (c : String)
    (hlen : 3 ≤ args.length) (hcomment : args.getD 2 "" ≠ "")
    (hread : env.readFileResult = Except.ok c) :
    (∀ k b s t, Effect.calledAddIssueWorklog k b s t ∈ (add env inter args flags).1 →
        b = args.getD 2 "")
    ∧ ∀ qs p1, getQuestions env (resolvedParams env args flags) = Except.ok (qs, p1) →
        questionComment ∉ qs := by
  have hcm : (parseArgsAndFlags args flags env.projectKey).comment = args.getD 2 "" := by
    unfold parseArgsAndFlags
    dsimp only
    rw [if_pos hlen]
  have hcm' : (resolvedParams env args flags).comment = args.getD 2 "" := by
    rw [(resolvedParams_fields env args flags).2.2.1, hcm]
  constructor
  · intro k b s t hmem
    rcases add_mem_cases env inter args flags _ hmem with ⟨ns, h⟩ | h | ⟨t1, p2, hc, -, hmem2⟩
    · exact Effect.noConfusion h
    · exact Effect.noConfusion h
    · obtain ⟨-, hb, -, -⟩ := submitPhase_call_inv env inter flags p2 k b s t hmem2
      have hpres := (completerPhase_preserves env inter _ t1 p2 hc).2.2.1
      rw [hb, hpres (by rw [hcm']; exact hcomment), hcm']
  · intro qs p1 hg
    obtain ⟨hqs, -⟩ := getQuestions_spec env _ qs p1 hg
    rw [hqs]
    intro hmem
    rcases List.mem_append.mp hmem with hx | hx
    · rcases questionsPre_mem _ _ hx with h | h <;>
        exact absurd (congrArg Question.name h) (by decide)
    · split at hx
      · cases hx
      · unfold questionsPost at hx
        rcases List.mem_append.mp hx with hx | hx
        · rcases List.mem_append.mp hx with hx | hx
          · rw [if_neg (by rw [hcm']; exact hcomment)] at hx
            cases hx
          · split at hx
            · exact absurd (congrArg Question.name (List.mem_singleton.mp hx))
                (by simp [questionComment, questionStartedDate])
            · cases hx
        · split at hx
          · exact absurd (congrArg Question.name (List.mem_singleton.mp hx))
              (by simp [questionComment, questionStartedTime])
          · cases hx

/-- Witness for C5 (amended): comment argument `Did work` with a readable
template whose content differs. -/
theorem C5_witness :
    3 ≤ (["KEY-1", "2h", "Did work"] : List String).length
      ∧ (["KEY-1", "2h", "Did work"] : List String).getD 2 "" ≠ ""
      ∧ ((∀ k b s t, Effect.calledAddIssueWorklog k b s t
            ∈ (add envBase interBase ["KEY-1", "2h", "Did work"]
                { web := false, template := "/tmpl", noInput := false, debug := false }).1 →
            b = (["KEY-1", "2h", "Did work"] : List String).getD 2 "")
        ∧ ∀ qs p1, getQuestions envBase
              (resolvedParams envBase ["KEY-1", "2h", "Did work"]
                { web := false, template := "/tmpl", noInput := false, debug := false })
            = Except.ok (qs, p1) → questionComment ∉ qs) :=
  ⟨by decide, by decide,
    C5_explicit_comment_wins envBase interBase ["KEY-1", "2h", "Did work"]
      { web := false, template := "/tmpl", noInput := false, debug := false }
      "template body" (by decide) (by decide) rfl⟩

/-- C6 counterexample: an interactive invocation (no piped stdin, template
flag unset — non-interactive mode NOT triggered) carrying the `--no-input`
flag skips the confirmation gate entirely and still submits: no confirmation
effect appears although the worklog call is made.  This refutes "for every
interactive invocation ... a binary submit/cancel confirmation is
presented". -/
theorem C6_counterexample :
    Effect.askedConfirmation
        ∉ (add envBase interBase ["KEY-1", "2h", "c", "2023-01-01", "09:00"]
            { web := false, template := "", noInput := true, debug := false }).1
      ∧ Effect.calledAddIssueWorklog "KEY-1" "c" "2023-01-01T09:00:00.000+0100" "2h"
        ∈ (add envBase interBase ["KEY-1", "2h", "c", "2023-01-01", "09:00"]
            { web := false, template := "", noInput := true, debug := false }).1 := by
  decide

/-- C6 (amended): the confirmation gate is governed by the `noInput`
parameter, not by interactivity alone: it is skipped whenever the `--no-input`
flag is set or non-interactive mode triggered, and presented whenever
neither holds; choosing cancel then aborts fatally with "Action aborted"
and the worklog call is never made. -/
theorem C6_confirmation_gate (env : Env) (inter : Interaction)
    (args : List String) (flags : FlagSet) (c : String)
    (hread : env.readFileResult = Except.ok c)
    (hask : inter.askError = none) :
    ((flags.noInput = true
        ∨ isNonInteractive env (parseArgsAndFlags args flags env.projectKey) = true) →
      Effect.askedConfirmation ∉ (add env inter args flags).1)
    ∧ (flags.noInput = false →
       isNonInteractive env (parseArgsAndFlags args flags env.projectKey) = false →
        Effect.askedConfirmation ∈ (add env inter args flags).1)
    ∧ (flags.noInput = false →
       isNonInteractive env (parseArgsAndFlags args flags env.projectKey) = false →
       inter.actionAskError = none →
       inter.actionAnswer = actionCancel →
        (add env inter args flags).2 = Outcome.fatal "Action aborted"
        ∧ ∀ k b s t, Effect.calledAddIssueWorklog k b s t ∉ (add env inter args flags).1) := by
  have hflagNoInput : (parseArgsAndFlags args flags env.projectKey).noInput
      = flags.noInput := rfl
  refine ⟨?_, ?_, ?_⟩
  · intro hskip hmem
    by_cases hm : isNonInteractive env (parseArgsAndFlags args flags env.projectKey) = true
        ∧ isMandatoryParamsMissing (parseArgsAndFlags args flags env.projectKey) = true
    · rw [add_mandatory env inter args flags hm] at hmem
      cases hmem
    · cases hcp : completerPhase env inter (resolvedParams env args flags) with
      | mk t1 r1 =>
        have ht1 := completerPhase_trace env inter (resolvedParams env args flags)
        rw [hcp] at ht1
        dsimp only at ht1
        cases r1 with
        | error e =>
          rw [add_of_completer_err env inter args flags t1 e hm hcp] at hmem
          dsimp only at hmem
          rcases ht1 with h1 | ⟨ns, h1⟩ <;> rw [h1] at hmem
          · cases hmem
          · exact Effect.noConfusion (List.mem_singleton.mp hmem)
        | ok p2 =>
          have hno : p2.noInput = true := by
            have hpres := (completerPhase_preserves env inter _ t1 p2 hcp).2.2.2.2.2
            rw [hpres, resolvedParams_noInput, hflagNoInput]
            rcases hskip with h | h
            · rw [h]
              simp
            · rw [h]
              simp
          rw [add_of_gate_ok env inter args flags t1 [] p2 hm hcp
            (gatePhase_noInput inter p2 hno)] at hmem
          dsimp only at hmem
          rcases List.mem_append.mp hmem with hx | hx
          · rcases List.mem_append.mp hx with hx | hx
            · rcases ht1 with h1 | ⟨ns, h1⟩ <;> rw [h1] at hx
              · cases hx
              · exact Effect.noConfusion (List.mem_singleton.mp hx)
            · cases hx
          · exact (submitPhase_no_asks env inter flags p2).2 hx
  · intro hflag hni
    have hm : ¬(isNonInteractive env (parseArgsAndFlags args flags env.projectKey) = true
        ∧ isMandatoryParamsMissing (parseArgsAndFlags args flags env.projectKey) = true) := by
      intro h
      rw [hni] at h
      exact absurd h.1 (by decide)
    obtain ⟨t1, p2, hcp⟩ :=
      completerPhase_ok_exists env inter (resolvedParams env args flags) c hread hask
    have hno : p2.noInput = false := by
      have hpres := (completerPhase_preserves env inter _ t1 p2 hcp).2.2.2.2.2
      rw [hpres, resolvedParams_noInput, hflagNoInput, hflag, hni]
      rfl
    cases hgp : gatePhase inter p2 with
    | mk t2 r2 =>
      have ht2 : t2 = [Effect.askedConfirmation] := by
        have h := gatePhase_interactive_trace inter p2 hno
        rw [hgp] at h
        exact h
      subst ht2
      cases r2 with
      | error e =>
        rw [add_of_gate_err env inter args flags t1 _ p2 e hm hcp hgp]
        dsimp only
        exact List.mem_append_right t1 (List.mem_singleton.mpr rfl)
      | ok u =>
        cases u
        rw [add_of_gate_ok env inter args flags t1 _ p2 hm hcp hgp]
        dsimp only
        exact List.mem_append_left _ (List.mem_append_right t1 (List.mem_singleton.mpr rfl))
  · intro hflag hni hactask hcancel
    have hm : ¬(isNonInteractive env (parseArgsAndFlags args flags env.projectKey) = true
        ∧ isMandatoryParamsMissing (parseArgsAndFlags args flags env.projectKey) = true) := by
      intro h
      rw [hni] at h
      exact absurd h.1 (by decide)
    obtain ⟨t1, p2, hcp⟩ :=
      completerPhase_ok_exists env inter (resolvedParams env args flags) c hread hask
    have hno : p2.noInput = false := by
      have hpres := (completerPhase_preserves env inter _ t1 p2 hcp).2.2.2.2.2
      rw [hpres, resolvedParams_noInput, hflagNoInput, hflag, hni]
      rfl
    have hgp := gatePhase_cancel inter p2 hno hactask hcancel
    have hadd := add_of_gate_err env inter args flags t1 [Effect.askedConfirmation] p2
      "Action aborted" hm hcp hgp
    rw [hadd]
    constructor
    · rfl
    · intro k b s t hmem
      dsimp only at hmem
      rcases List.mem_append.mp hmem with hx | hx
      · have ht1 := completerPhase_trace env inter (resolvedParams env args flags)
        rw [hcp] at ht1
        dsimp only at ht1
        rcases ht1 with h1 | ⟨ns, h1⟩ <;> rw [h1] at hx
        · cases hx
        · exact Effect.noConfusion (List.mem_singleton.mp hx)
      · exact Effect.noConfusion (List.mem_singleton.mp hx)

/-- Witness for C6 (amended): the base environment and interaction. -/
theorem C6_witness :
    envBase.readFileResult = Except.ok "template body"
      ∧ interBase.askError = none
      ∧ (((false = true ∨ isNonInteractive envBase (parseArgsAndFlags ["KEY-1"]
            { web := false, template := "", noInput := false, debug := false }
            envBase.projectKey) = true) →
          Effect.askedConfirmation
            ∉ (add envBase interBase ["KEY-1"]
                { web := false, template := "", noInput := false, debug := false }).1)
        ∧ ((false : Bool) = false →
           isNonInteractive envBase (parseArgsAndFlags ["KEY-1"]
              { web := false, template := "", noInput := false, debug := false }
              envBase.projectKey) = false →
            Effect.askedConfirmation
              ∈ (add envBase interBase ["KEY-1"]
                  { web := false, template := "", noInput := false, debug := false }).1)
        ∧ ((false : Bool) = false →
           isNonInteractive envBase (parseArgsAndFlags ["KEY-1"]
              { web := false, template := "", noInput := false, debug := false }
              envBase.projectKey) = false →
           interBase.actionAskError = none →
           interBase.actionAnswer = actionCancel →
            (add envBase interBase ["KEY-1"]
                { web := false, template := "", noInput := false, debug := false }).2
              = Outcome.fatal "Action aborted"
            ∧ ∀ k b s t, Effect.calledAddIssueWorklog k b s t
                ∉ (add envBase interBase ["KEY-1"]
                    { web := false, template := "", noInput := false, debug := false }).1)) :=
  ⟨rfl, rfl, C6_confirmation_gate envBase interBase ["KEY-1"]
    { web := false, template := "", noInput := false, debug := false }
    "template body" rfl rfl⟩

theorem map_ite_singleton_sublist (c : Prop) [Decidable c] (q : Question) (n : String)
    (hn : q.name = n) :
    ((if c then [q] else []).map Question.name).Sublist [n] := by
  split
  · rw [List.map_cons, List.map_nil, hn]
  · rw [List.map_nil]
    exact List.nil_sublist _

/-- C7: in every successful `getQuestions` run the question names form a
sublist (so: appear in exactly this order, each as its own question, without
repetition) of issue key, time spent, comment, started date, started time;
and merging the collected answers touches only fields that were empty before
prompting — a field set by a positional argument or flag is never
overwritten. -/
theorem C7_prompt_order_and_merge (env : Env) (inter : Interaction) (p : AddParams)
    (qs : List Question) (p1 : AddParams)
    (hg : getQuestions env p = Except.ok (qs, p1)) :
    (qs.map Question.name).Sublist
        ["issueKey", "timeSpent", "comment", "startedDate", "startedTime"]
      ∧ (qs.map Question.name).Nodup
      ∧ (p.issueKey ≠ "" → (mergeAnswers inter qs p1).issueKey = p.issueKey)
      ∧ (p.timeSpent ≠ "" → (mergeAnswers inter qs p1).timeSpent = p.timeSpent)
      ∧ (p.comment ≠ "" → (mergeAnswers inter qs p1).comment = p.comment)
      ∧ (p.startedDate ≠ "" → (mergeAnswers inter qs p1).startedDate = p.startedDate)
      ∧ (p.startedTime ≠ "" → (mergeAnswers inter qs p1).startedTime = p.startedTime) := by
  obtain ⟨hqs, hk, hts, hsd, hst, -, -, -, hcm⟩ := getQuestions_spec env p qs p1 hg
  have hsub : (qs.map Question.name).Sublist
      ["issueKey", "timeSpent", "comment", "startedDate", "startedTime"] := by
    rw [hqs, List.map_append]
    have hpre : ((questionsPre p).map Question.name).Sublist ["issueKey", "timeSpent"] := by
      unfold questionsPre
      rw [List.map_append]
      exact List.Sublist.append (map_ite_singleton_sublist _ _ _ rfl)
        (map_ite_singleton_sublist _ _ _ rfl)
    have hmid : (((if p.noInput = true ∧ p.comment = "" then []
          else questionsPost env p)).map Question.name).Sublist
        ["comment", "startedDate", "startedTime"] := by
      split
      · rw [List.map_nil]
        exact List.nil_sublist _
      · unfold questionsPost
        rw [List.map_append, List.map_append]
        exact List.Sublist.append
          (List.Sublist.append (map_ite_singleton_sublist _ _ _ rfl)
            (map_ite_singleton_sublist _ _ _ rfl))
          (map_ite_singleton_sublist _ _ _ rfl)
    exact List.Sublist.append hpre hmid
  have hmerge := mergeAnswers_preserves inter qs p1
  refine ⟨hsub, List.Nodup.sublist hsub (by decide), ?_, ?_, ?_, ?_, ?_⟩
  · intro hne
    rw [hmerge.1.1 (by rw [hk]; exact hne), hk]
  · intro hne
    rw [hmerge.1.2.1 (by rw [hts]; exact hne), hts]
  · intro hne
    rw [hmerge.1.2.2.1 (by rw [hcm hne]; exact hne), hcm hne]
  · intro hne
    rw [hmerge.1.2.2.2.1 (by rw [hsd]; exact hne), hsd]
  · intro hne
    rw [hmerge.1.2.2.2.2 (by rw [hst]; exact hne), hst]

/-- Witness for C7: an invocation with issue key given and everything else
missing — prompts are generated for the other four fields in order and the
issue key is not overwritten. -/
theorem C7_witness :
    getQuestions envBase
        { issueKey := "KEY-1", comment := "", startedDate := "", startedTime := "",
          timeSpent := "", template := "", noInput := false, debug := false }
      = Except.ok ([questionTimeSpent, questionComment,
          questionStartedDate "2026-10-11", questionStartedTime "12:00"],
        { issueKey := "KEY-1", comment := "", startedDate := "", startedTime := "",
          timeSpent := "", template := "", noInput := false, debug := false })
      ∧ (([questionTimeSpent, questionComment, questionStartedDate "2026-10-11",
          questionStartedTime "12:00"].map Question.name).Sublist
          ["issueKey", "timeSpent", "comment", "startedDate", "startedTime"]
        ∧ ([questionTimeSpent, questionComment, questionStartedDate "2026-10-11",
            questionStartedTime "12:00"].map Question.name).Nodup
        ∧ ("KEY-1" ≠ "" →
            (mergeAnswers interBase
              [questionTimeSpent, questionComment, questionStartedDate "2026-10-11",
                questionStartedTime "12:00"]
              { issueKey := "KEY-1", comment := "", startedDate := "", startedTime := "",
                timeSpent := "", template := "", noInput := false,
                debug := false }).issueKey = "KEY-1")
        ∧ (("" : String) ≠ "" →
            (mergeAnswers interBase
              [questionTimeSpent, questionComment, questionStartedDate "2026-10-11",
                questionStartedTime "12:00"]
              { issueKey := "KEY-1", comment := "", startedDate := "", startedTime := "",
                timeSpent := "", template := "", noInput := false,
                debug := false }).timeSpent = "")
        ∧ (("" : String) ≠ "" →
            (mergeAnswers interBase
              [questionTimeSpent, questionComment, questionStartedDate "2026-10-11",
                questionStartedTime "12:00"]
              { issueKey := "KEY-1", comment := "", startedDate := "", startedTime := "",
                timeSpent := "", template := "", noInput := false,
                debug := false }).comment = "")
        ∧ (("" : String) ≠ "" →
            (mergeAnswers interBase
              [questionTimeSpent, questionComment, questionStartedDate "2026-10-11",
                questionStartedTime "12:00"]
              { issueKey := "KEY-1", comment := "", startedDate := "", startedTime := "",
                timeSpent := "", template := "", noInput := false,
                debug := false }).startedDate = "")
        ∧ (("" : String) ≠ "" →
            (mergeAnswers interBase
              [questionTimeSpent, questionComment, questionStartedDate "2026-10-11",
                questionStartedTime "12:00"]
              { issueKey := "KEY-1", comment := "", startedDate := "", startedTime := "",
                timeSpent := "", template := "", noInput := false,
                debug := false }).startedTime = "")) :=
  ⟨by rfl,
    C7_prompt_order_and_merge envBase interBase
      { issueKey := "KEY-1", comment := "", startedDate := "", startedTime := "",
        timeSpent := "", template := "", noInput := false, debug := false }
      [questionTimeSpent, questionComment, questionStartedDate "2026-10-11",
        questionStartedTime "12:00"]
      { issueKey := "KEY-1", comment := "", startedDate := "", startedTime := "",
        timeSpent := "", template := "", noInput := false, debug := false }
      (by rfl)⟩

theorem questionsPre_names (p : AddParams) :
    (questionsPre p).map Question.name
      = (if p.issueKey = "" then ["issueKey"] else [])
        ++ (if p.timeSpent = "" then ["timeSpent"] else []) := by
  unfold questionsPre
  rw [List.map_append]
  congr 1 <;> split <;> rfl

/-- C9 counterexample: with `--no-input` set, non-interactive mode not
triggered, and a comment supplied as an argument, the completer still
generates the started-date and started-time prompts — the early return is
taken only when the comment is empty, so those prompts are NOT suppressed
here. -/
theorem C9_counterexample :
    Effect.askedQuestions ["startedDate", "startedTime"]
      ∈ (add envBase interBase ["KEY-1", "2h", "my work"]
          { web := false, template := "", noInput := true, debug := false }).1 := by
  decide

/-- C9 (amended): with `--no-input` set and non-interactive mode not
triggered, WHEN THE COMMENT FIELD IS EMPTY the completer generates only the
issue-key and time-spent prompts (when those fields are empty), assigns the
template-sourced body (or the empty string) to the comment, and leaves the
started-date and started-time fields at their argument-supplied values with
no prompt; when the comment is non-empty the early return is skipped and the
started-date/started-time prompts can still appear (see the
counterexample). -/
theorem C9_noInput_early_return (env : Env) (inter : Interaction)
    (args : List String) (flags : FlagSet) (c : String)
    (hflag : flags.noInput = true)
    (hstdin : env.stdinHasData = false)
    (htpl : flags.template ≠ "-")
    (hcomment : (parseArgsAndFlags args flags env.projectKey).comment = "")
    (hread : env.readFileResult = Except.ok c) :
    ∀ qs p1, getQuestions env (resolvedParams env args flags) = Except.ok (qs, p1) →
      qs.map Question.name
          = (if (parseArgsAndFlags args flags env.projectKey).issueKey = ""
              then ["issueKey"] else [])
            ++ (if (parseArgsAndFlags args flags env.projectKey).timeSpent = ""
              then ["timeSpent"] else [])
        ∧ p1.comment = (if flags.template ≠ "" then c else "")
        ∧ (mergeAnswers inter qs p1).comment = p1.comment
        ∧ (mergeAnswers inter qs p1).startedDate
            = (parseArgsAndFlags args flags env.projectKey).startedDate
        ∧ (mergeAnswers inter qs p1).startedTime
            = (parseArgsAndFlags args flags env.projectKey).startedTime := by
  have htb : ((parseArgsAndFlags args flags env.projectKey).template == "-") = false := by
    have ht : (parseArgsAndFlags args flags env.projectKey).template = flags.template := rfl
    rw [ht]
    exact beq_eq_false_iff_ne.mpr htpl
  have hni0 : isNonInteractive env (parseArgsAndFlags args flags env.projectKey)
      = false := by
    unfold isNonInteractive
    rw [hstdin, htb]
    rfl
  have hres := resolvedParams_of_interactive env args flags hni0
  intro qs p1 hg
  rw [hres] at hg
  have hpni : (parseArgsAndFlags args flags env.projectKey).noInput = true := hflag
  rw [getQuestions_of_readBody_ok env _ _
      (readBody_of_read_ok env (parseArgsAndFlags args flags env.projectKey) c hread),
    if_pos ⟨hpni, hcomment⟩] at hg
  rw [Except.ok.injEq, Prod.mk.injEq] at hg
  obtain ⟨hqs, hp1⟩ := hg
  have hnotasked : ∀ n : String, n ≠ "issueKey" → n ≠ "timeSpent" →
      answerOf inter qs n = "" := by
    intro n hn1 hn2
    apply answerOf_not_asked
    intro q hq
    rw [← hqs] at hq
    rcases questionsPre_mem _ _ hq with h | h <;> rw [h]
    · intro hc2
      exact hn1 hc2.symm
    · intro hc2
      exact hn2 hc2.symm
  have hd : p1.startedDate = (parseArgsAndFlags args flags env.projectKey).startedDate := by
    rw [← hp1]
  have htm : p1.startedTime
      = (parseArgsAndFlags args flags env.projectKey).startedTime := by
    rw [← hp1]
  refine ⟨?_, ?_, ?_, ?_, ?_⟩
  · rw [← hqs, questionsPre_names]
  · rw [← hp1]
    simp only [hstdin]
    simp only [Bool.false_eq_true, or_false]
    rfl
  · by_cases hb : p1.comment = ""
    · unfold mergeAnswers
      dsimp only
      rw [if_pos hb, hnotasked "comment" (by decide) (by decide), hb]
    · exact (mergeAnswers_preserves inter qs p1).1.2.2.1 hb
  · by_cases hb : p1.startedDate = ""
    · unfold mergeAnswers
      dsimp only
      rw [if_pos hb, hnotasked "startedDate" (by decide) (by decide), ← hd, hb]
    · rw [(mergeAnswers_preserves inter qs p1).1.2.2.2.1 hb, hd]
  · by_cases hb : p1.startedTime = ""
    · unfold mergeAnswers
      dsimp only
      rw [if_pos hb, hnotasked "startedTime" (by decide) (by decide), ← htm, hb]
    · rw [(mergeAnswers_preserves inter qs p1).1.2.2.2.2 hb, htm]

/-- Witness for C9 (amended): `worklog add KEY-1 --no-input` with no
template. -/
theorem C9_witness :
    envBase.stdinHasData = false
      ∧ ("" : String) ≠ "-"
      ∧ (parseArgsAndFlags ["KEY-1"]
          { web := false, template := "", noInput := true, debug := false }
          envBase.projectKey).comment = ""
      ∧ envBase.readFileResult = Except.ok "template body"
      ∧ ∀ qs p1, getQuestions envBase
            (resolvedParams envBase ["KEY-1"]
              { web := false, template := "", noInput := true, debug := false })
          = Except.ok (qs, p1) →
          qs.map Question.name
              = (if (parseArgsAndFlags ["KEY-1"]
                    { web := false, template := "", noInput := true, debug := false }
                    envBase.projectKey).issueKey = "" then ["issueKey"] else [])
                ++ (if (parseArgsAndFlags ["KEY-1"]
                    { web := false, template := "", noInput := true, debug := false }
                    envBase.projectKey).timeSpent = "" then ["timeSpent"] else [])
            ∧ p1.comment = (if ("" : String) ≠ "" then "template body" else "")
            ∧ (mergeAnswers interBase qs p1).comment = p1.comment
            ∧ (mergeAnswers interBase qs p1).startedDate
                = (parseArgsAndFlags ["KEY-1"]
                    { web := false, template := "", noInput := true, debug := false }
                    envBase.projectKey).startedDate
            ∧ (mergeAnswers interBase qs p1).startedTime
                = (parseArgsAndFlags ["KEY-1"]
                    { web := false, template := "", noInput := true, debug := false }
                    envBase.projectKey).startedTime :=
  ⟨rfl, by decide, by decide, rfl,
    C9_noInput_early_return envBase interBase ["KEY-1"]
      { web := false, template := "", noInput := true, debug := false }
      "template body" rfl rfl (by decide) (by decide) rfl⟩

end WorklogAdd
